import Mathlib

/-!
# Verification of the sales-dashboard fiscal aggregation pipeline

Shallow embedding of the pipeline in `src/app.py`: fiscal-period derivation
(`get_fiscal_period`), the 12-month skeleton generator (`create_full_period_df`),
currency normalization (the `currency_columns` loop), the sidebar filters
(`shoryu_options`, `all_periods`, `base_filter`) and the monthly aggregation /
merge (`df_order_grouped`, `merged_df_order`, and the delivery analogues).

Modelling conventions:
* Timestamps (`pd.Timestamp`) are `Date` records (year/month/day); records enter
  the pipeline after `pd.to_datetime(..., errors="coerce")`, so date cells are
  `Option Date` (absent = `NaT`).
* Monetary amounts are integers; `pd.to_numeric` is modelled on integer-valued
  strings (`pyInt`), with `none` standing for both coercion failure and `NaN`
  (either way `fillna(0)` makes the cell `0`).
* Python's decimal formatting of an `int` inside an f-string is `intRepr`;
  Python's `int(str)` is `pyInt`.
* `str.replace(single_char, '')` and the regex `'[¥,]'`-deletion are character
  filters on the string's character list.
-/

/-- A calendar date, standing for a `pd.Timestamp` (time-of-day is never used). -/
structure Date where
  year : Int
  month : Nat
  day : Nat
deriving DecidableEq, Repr

/-- `d + relativedelta(months=i)` for day-of-month values that never clamp
(the pipeline only shifts day-1 dates). -/
def addMonths (d : Date) (i : Nat) : Date :=
  ⟨d.year + ((d.month - 1 + i) / 12 : Nat), (d.month - 1 + i) % 12 + 1, d.day⟩

/-- Gregorian leap-year test. -/
def isLeap (y : Int) : Bool := (y % 4 == 0 && y % 100 != 0) || y % 400 == 0

/-- Number of days of month `m` of year `y`. -/
def daysInMonth (y : Int) (m : Nat) : Nat :=
  if m = 2 then (if isLeap y then 29 else 28)
  else if m = 4 ∨ m = 6 ∨ m = 9 ∨ m = 11 then 30
  else 31

/-- The month-end timestamp of the month containing `d`: the label that
`pd.Grouper(freq='M')` gives to `d`'s bin. -/
def monthEnd (d : Date) : Date := ⟨d.year, d.month, daysInMonth d.year d.month⟩

/-- ASCII decimal digit, as Python's `int()` accepts. -/
def isPyDigit (c : Char) : Bool := 48 ≤ c.toNat && c.toNat ≤ 57

/-- Whitespace as stripped by Python's `int()` (ASCII space and control whitespace;
the strings fed to the pipeline contain no exotic Unicode whitespace). -/
def isPySpace (c : Char) : Bool := c.toNat == 32 || (9 ≤ c.toNat && c.toNat ≤ 13)

/-- Fuel-driven digit accumulator (structural recursion, so that the kernel
can evaluate it); fuel `n + 1` always suffices for `n`. -/
def natDigitsAux : Nat → Nat → List Char → List Char
  | 0, _, acc => acc
  | fuel + 1, n, acc =>
    if n < 10 then Nat.digitChar n :: acc
    else natDigitsAux fuel (n / 10) (Nat.digitChar (n % 10) :: acc)

/-- Decimal digits of `n`, most significant first (`natDigits 0 = ['0']`). -/
def natDigits (n : Nat) : List Char := natDigitsAux (n + 1) n []

/-- Decimal representation of a natural number. -/
def natRepr (n : Nat) : String := String.mk (natDigits n)

/-- Python's decimal formatting of an `int` (as in `f"第{n}期"`). -/
def intRepr (i : Int) : String :=
  if i < 0 then "-" ++ natRepr i.natAbs else natRepr i.natAbs

/-- Value of a digit list, most significant first. -/
def decimalVal (cs : List Char) : Nat :=
  cs.foldl (fun a c => a * 10 + (c.toNat - 48)) 0

/-- Parse a non-empty all-digit character list. -/
def parseDigits (cs : List Char) : Option Nat :=
  if cs ≠ [] ∧ cs.all isPyDigit then some (decimalVal cs) else none

/-- Strip leading and trailing whitespace from a character list. -/
def trimChars (cs : List Char) : List Char :=
  ((cs.dropWhile isPySpace).reverse.dropWhile isPySpace).reverse

deriving instance DecidableEq for Except

/-- Python's `int(s)` on a string: optional surrounding whitespace, optional
sign, then decimal digits; `none` when `int()` would raise `ValueError`. -/
def pyInt (s : String) : Option Int :=
  let cs := trimChars s.data
  if cs.head? = some '-' then (parseDigits cs.tail).map (fun n => -(n : Int))
  else if cs.head? = some '+' then (parseDigits cs.tail).map (fun n => (n : Int))
  else (parseDigits cs).map (fun n => (n : Int))

/-- `get_fiscal_period` (src/app.py lines 55-66): absent dates give `None`;
otherwise the fiscal year is `date.year` for months ≥ 4 and `date.year - 1`
below, the period number is `fiscal_year - 2022`, positive numbers give the
label `f"第{period_number}期"` and the rest the sentinel `"対象期間外"`. -/
def get_fiscal_period (date : Option Date) : Option String :=
  match date with
  | none => none
  | some d =>
    let fiscal_year := if d.month ≥ 4 then d.year else d.year - 1
    let period_number := fiscal_year - 2022
    if period_number > 0 then some ("第" ++ intRepr period_number ++ "期")
    else some "対象期間外"

/-- Python's `s.replace(c, '')` for a single-character pattern: delete every
occurrence of `c`. -/
def removeChar (s : String) (c : Char) : String :=
  String.mk (s.data.filter (fun a => a ≠ c))

/-- `create_full_period_df` (src/app.py lines 132-141). Input `none` stands for
a non-string argument (`isinstance` guard). The result is `Except`-valued:
`Except.error` marks the uncaught `ValueError` that `int()` raises when the
string contains `'第'` but its digits do not parse; otherwise `.ok none` models
Python `None` and `.ok (some months)` the 12-row DataFrame of month starts. -/
def create_full_period_df (period_str : Option String) : Except String (Option (List Date)) :=
  match period_str with
  | none => Except.ok none
  | some s =>
    if ¬ s.data.contains '第' then Except.ok none
    else
      match pyInt (removeChar (removeChar s '第') '期') with
      | none => Except.error "ValueError: invalid literal for int"
      | some period_num =>
        let start_year := 2022 + period_num
        let start_date : Date := ⟨start_year, 4, 1⟩
        Except.ok (some ((List.range 12).map (fun i => addMonths start_date i)))

/-- The period label the dashboard prints for period number `n` (`f"第{n}期"`). -/
def fiscalLabel (n : Int) : String := "第" ++ intRepr n ++ "期"

/-- The 12 month-start dates `create_full_period_df` builds for period `n`. -/
def periodMonths (n : Int) : List Date :=
  (List.range 12).map (fun i => addMonths ⟨2022 + n, 4, 1⟩ i)

/-- A raw spreadsheet cell of a currency column: a string, a number, or absent
(`NaN` / `None`). -/
inductive RawVal where
  | str (s : String)
  | num (n : Int)
  | absent
deriving DecidableEq, Repr

/-- Line 89: `df[col].replace(r'^\s*$', None, regex=True)` — a cell whose string
is empty or all-whitespace becomes absent; other cells are unchanged. -/
def blankToNone (v : RawVal) : RawVal :=
  match v with
  | RawVal.str s => if s.data.all isPySpace then RawVal.absent else RawVal.str s
  | v => v

/-- Line 90, first half: `astype(str)` — Python's `str()` of the cell
(`None` prints as `"None"`, `NaN` as `"nan"`). -/
def pyStrOf (v : RawVal) : String :=
  match v with
  | RawVal.str s => s
  | RawVal.num n => intRepr n
  | RawVal.absent => "nan"

/-- Line 90, second half: `.str.replace('[¥,]', '', regex=True)` — delete every
`'¥'` and `','`. -/
def stripCurrency (s : String) : String :=
  String.mk (s.data.filter (fun c => c ≠ '¥' ∧ c ≠ ','))

/-- Line 91: `pd.to_numeric(..., errors='coerce')` on integer-valued amount
strings; `none` stands for coercion failure or `NaN` (both become `0` under
the `fillna(0)` that follows). -/
def to_numeric (s : String) : Option Int := pyInt s

/-- The whole per-cell currency normalization of src/app.py lines 89-91
(`replace(blank, None)`, `astype(str)`, strip `[¥,]`, `to_numeric(coerce)`,
`fillna(0)`). -/
def normalize_amount (v : RawVal) : Int :=
  (to_numeric (stripCurrency (pyStrOf (blankToNone v)))).getD 0

/-- One spreadsheet row as the pipeline sees it after `load_and_process_data`
has dropped blank `管理No.` rows and run `pd.to_datetime(..., errors="coerce")`
on the two date columns: `order_month` is `受注月`, `delivery_month` is `納品月`,
`revenue` is `売上（税抜）`, `gross_profit` is `粗利（税抜）`, `shoryu` is `商流`,
`phase` is `案件フェーズ`, `tanto` is `担当者`, `eigyo_tanto` is `営業担当`.
Absent categorical cells are `none`. -/
structure Record where
  order_month : Option Date
  delivery_month : Option Date
  revenue : RawVal
  gross_profit : RawVal
  shoryu : Option String
  phase : Option String
  tanto : Option String
  eigyo_tanto : Option String
deriving DecidableEq, Repr

/-- Lexicographic "less than" on character lists by code point, as Python
compares strings. -/
def lexLt (a b : List Char) : Bool :=
  match a, b with
  | [], [] => false
  | [], _ :: _ => true
  | _ :: _, [] => false
  | x :: xs, y :: ys =>
    if x.toNat < y.toNat then true
    else if y.toNat < x.toNat then false
    else lexLt xs ys

/-- Lexicographic "less than or equal" on character lists by code point. -/
def lexLe (a b : List Char) : Bool :=
  match a, b with
  | [], _ => true
  | _ :: _, [] => false
  | x :: xs, y :: ys =>
    if x.toNat < y.toNat then true
    else if y.toNat < x.toNat then false
    else lexLe xs ys

/-- Python's `<` on strings. -/
def pyStrLt (a b : String) : Bool := lexLt a.data b.data

/-- Python's `<=` on strings. -/
def pyStrLe (a b : String) : Bool := lexLe a.data b.data

/-- Python's `sorted` on a list of distinct strings: sorting by the code-point
order (modelled by insertion sort, which agrees with any correct sort because
`pyStrLe` is total and transitive). -/
def pySorted (l : List String) : List String :=
  List.insertionSort (fun a b => pyStrLe a b = true) l

/-- `df["受注期"]`: the order-date fiscal period column. -/
def orderPeriod (r : Record) : Option String := get_fiscal_period r.order_month

/-- `df["納品期"]`: the delivery-date fiscal period column. -/
def deliveryPeriod (r : Record) : Option String := get_fiscal_period r.delivery_month

/-- `df["商流"].dropna().unique().tolist()` (line 103): the distinct present
flow-type values, first occurrences first. -/
def shoryu_options (records : List Record) : List String :=
  (records.filterMap (fun r => r.shoryu)).dedup

/-- `df["案件フェーズ"].dropna().unique().tolist()` (line 106). -/
def phase_options (records : List Record) : List String :=
  (records.filterMap (fun r => r.phase)).dedup

/-- Lines 115-117: `sorted(list(set(order_periods) | set(delivery_periods)))`
where each operand is the `dropna().unique()` of a period column. -/
def all_periods (records : List Record) : List String :=
  pySorted ((records.filterMap orderPeriod ++ records.filterMap deliveryPeriod).dedup)

/-- Lines 119-120: `latest_period_index = len(all_periods) - 1 if all_periods
else 0` and `st.selectbox(..., index=latest_period_index)`; the selectbox of an
empty option list yields `None`. -/
def default_period (records : List Record) : Option String :=
  (all_periods records).get? ((all_periods records).length - 1)

/-- `pd.Series.isin` against a list of present strings: an absent cell matches
nothing (the selection lists come from `dropna()`ed options, so they contain no
absent value). -/
def isinOpt (v : Option String) (sel : List String) : Bool :=
  match v with
  | none => false
  | some s => sel.contains s

/-- `base_filter` (lines 125-129): flow type in the selection, phase in the
selection, and either representative column in the sales selection. -/
def base_filter (selShoryu selPhase selSales : List String) (r : Record) : Bool :=
  isinOpt r.shoryu selShoryu && isinOpt r.phase selPhase &&
    (isinOpt r.tanto selSales || isinOpt r.eigyo_tanto selSales)

/-- Line 147: `df[base_filter & (df["受注期"] == selected_period)]`
(an absent period label compares unequal to the selected string). -/
def df_order_filtered (records : List Record) (selShoryu selPhase selSales : List String)
    (selected_period : String) : List Record :=
  records.filter (fun r => base_filter selShoryu selPhase selSales r &&
    orderPeriod r == some selected_period)

/-- Line 179: `df[base_filter & (df["納品期"] == selected_period)]`. -/
def df_delivery_filtered (records : List Record) (selShoryu selPhase selSales : List String)
    (selected_period : String) : List Record :=
  records.filter (fun r => base_filter selShoryu selPhase selSales r &&
    deliveryPeriod r == some selected_period)

/-- The group keys `pd.Grouper(freq='M')` assigns to the rows: the month-end
timestamps of the rows' dates, one per distinct month (rows with `NaT` dates
fall in no bin). `Grouper` also emits empty bins for gap months between the
earliest and latest key and sorts the keys; those extra all-zero month-end rows
and the key order are irrelevant to every observable below, because the merge
looks rows up by key equality against a month-start skeleton. -/
def groupKeys (dateOf : Record → Option Date) (filtered : List Record) : List Date :=
  (filtered.filterMap (fun r => (dateOf r).map monthEnd)).dedup

/-- `groupby(pd.Grouper(freq='M'))[['売上（税抜）', '粗利（税抜）']].sum()`
(lines 153 and 184): one row per group key with the summed revenue and gross
profit of the rows in that month bin. -/
def df_grouped (dateOf : Record → Option Date) (filtered : List Record) :
    List (Date × Int × Int) :=
  (groupKeys dateOf filtered).map (fun k =>
    let grp := filtered.filter (fun r => (dateOf r).map monthEnd == some k)
    (k, (grp.map (fun r => normalize_amount r.revenue)).foldl (· + ·) 0,
        (grp.map (fun r => normalize_amount r.gross_profit)).foldl (· + ·) 0))

/-- `pd.merge(full_period_df, grouped, on='月', how='left').fillna(0)`
(lines 157 and 187): for every skeleton month take the grouped row with the
equal key, or zeros when no key matches (grouped keys are distinct, so the
left join neither drops nor duplicates skeleton rows). -/
def pd_merge_left (skeleton : List Date) (grouped : List (Date × Int × Int)) :
    List (Date × Int × Int) :=
  skeleton.map (fun m =>
    match grouped.find? (fun g => g.1 == m) with
    | some g => g
    | none => (m, 0, 0))

/-- `merged_df_order` (lines 147-157), as a function of the raw records, the
filter selections and the selected period: `none` when `create_full_period_df`
gives no skeleton (then the app skips the chart), otherwise the 12-row merge
of the skeleton with the grouped order-month totals. -/
def merged_df_order (records : List Record) (selShoryu selPhase selSales : List String)
    (selected_period : String) : Option (List (Date × Int × Int)) :=
  match create_full_period_df (some selected_period) with
  | Except.ok (some skeleton) =>
    some (pd_merge_left skeleton
      (df_grouped (fun r => r.order_month)
        (df_order_filtered records selShoryu selPhase selSales selected_period)))
  | _ => none

/-- `merged_df_delivery` (lines 179-187), analogously. -/
def merged_df_delivery (records : List Record) (selShoryu selPhase selSales : List String)
    (selected_period : String) : Option (List (Date × Int × Int)) :=
  match create_full_period_df (some selected_period) with
  | Except.ok (some skeleton) =>
    some (pd_merge_left skeleton
      (df_grouped (fun r => r.delivery_month)
        (df_delivery_filtered records selShoryu selPhase selSales selected_period)))
  | _ => none

/-! ## Digit and parsing lemmas -/

lemma digitChar_toNat {d : Nat} (h : d < 10) : (Nat.digitChar d).toNat = 48 + d := by
  interval_cases d <;> rfl

lemma isPyDigit_digitChar {d : Nat} (h : d < 10) : isPyDigit (Nat.digitChar d) = true := by
  interval_cases d <;> rfl

lemma natDigitsAux_eq : ∀ n fuel : Nat, ∀ acc : List Char, 1 ≤ fuel → n < 10 ^ fuel →
    natDigitsAux fuel n acc = natDigits n ++ acc := by
  intro n
  induction n using Nat.strong_induction_on with
  | _ n ih =>
    intro fuel acc hfuel hlt
    match fuel with
    | 0 => omega
    | fuel + 1 =>
      by_cases h : n < 10
      · simp [natDigitsAux, natDigits, h]
      · have hn10 : 10 ≤ n := by omega
        have hdiv : n / 10 < n := Nat.div_lt_self (by omega) (by omega)
        have hfuel1 : 1 ≤ fuel := by
          rcases Nat.eq_zero_or_pos fuel with hf | hf
          · subst hf; simp at hlt; omega
          · exact hf
        have hdivlt : n / 10 < 10 ^ fuel := by
          rw [Nat.div_lt_iff_lt_mul (by omega)]
          calc n < 10 ^ (fuel + 1) := hlt
            _ = 10 ^ fuel * 10 := by rw [pow_succ]
        have hdivlt' : n / 10 < 10 ^ n := lt_of_lt_of_le hdiv (le_of_lt (Nat.lt_pow_self (by omega) n))
        have lhs : natDigitsAux (fuel + 1) n acc =
            natDigits (n / 10) ++ (Nat.digitChar (n % 10) :: acc) := by
          rw [show natDigitsAux (fuel + 1) n acc =
              natDigitsAux fuel (n / 10) (Nat.digitChar (n % 10) :: acc) from by
            simp [natDigitsAux, h]]
          exact ih (n / 10) hdiv fuel _ hfuel1 hdivlt
        have rhs : natDigits n = natDigits (n / 10) ++ [Nat.digitChar (n % 10)] := by
          rw [natDigits]
          rw [show natDigitsAux (n + 1) n [] =
              natDigitsAux n (n / 10) [Nat.digitChar (n % 10)] from by
            simp [natDigitsAux, h]]
          exact ih (n / 10) hdiv n _ (by omega) hdivlt'
        rw [lhs, rhs]
        simp

lemma natDigits_eq (n : Nat) : natDigits n =
    if n < 10 then [Nat.digitChar n]
    else natDigits (n / 10) ++ [Nat.digitChar (n % 10)] := by
  by_cases h : n < 10
  · simp [natDigits, natDigitsAux, h]
  · rw [if_neg h, natDigits,
      show natDigitsAux (n + 1) n [] =
        natDigitsAux n (n / 10) [Nat.digitChar (n % 10)] from by simp [natDigitsAux, h]]
    exact natDigitsAux_eq (n / 10) n _ (by omega)
      (lt_of_lt_of_le (Nat.div_lt_self (by omega) (by omega))
        (le_of_lt (Nat.lt_pow_self (by omega) n)))

lemma natDigits_ne_nil (n : Nat) : natDigits n ≠ [] := by
  rw [natDigits_eq]
  split <;> simp

lemma natDigits_digits : ∀ n : Nat, ∀ c ∈ natDigits n, isPyDigit c = true := by
  intro n
  induction n using Nat.strong_induction_on with
  | _ n ih =>
    rw [natDigits_eq]
    split
    · next h =>
      intro c hc
      simp only [List.mem_singleton] at hc
      subst hc
      exact isPyDigit_digitChar h
    · next h =>
      intro c hc
      rw [List.mem_append] at hc
      rcases hc with hc | hc
      · exact ih (n / 10) (Nat.div_lt_self (by omega) (by omega)) c hc
      · simp only [List.mem_singleton] at hc
        subst hc
        exact isPyDigit_digitChar (Nat.mod_lt _ (by omega))

lemma decimalVal_append_digit (cs : List Char) (c : Char) :
    decimalVal (cs ++ [c]) = decimalVal cs * 10 + (c.toNat - 48) := by
  simp [decimalVal, List.foldl_append]

lemma decimalVal_natDigits : ∀ n : Nat, decimalVal (natDigits n) = n := by
  intro n
  induction n using Nat.strong_induction_on with
  | _ n ih =>
    rw [natDigits_eq]
    split
    · next h =>
      simp [decimalVal, digitChar_toNat h]
    · next h =>
      rw [decimalVal_append_digit, ih (n / 10) (Nat.div_lt_self (by omega) (by omega)),
        digitChar_toNat (Nat.mod_lt _ (by omega))]
      omega

lemma isPyDigit_facts {c : Char} (h : isPyDigit c = true) :
    isPySpace c = false ∧ c ≠ '第' ∧ c ≠ '期' ∧ c ≠ '-' ∧ c ≠ '+' := by
  simp only [isPyDigit, Bool.and_eq_true, decide_eq_true_eq] at h
  obtain ⟨h1, h2⟩ := h
  refine ⟨?_, ?_, ?_, ?_, ?_⟩
  · simp only [isPySpace, Bool.or_eq_false_iff, Bool.and_eq_false_iff]
    constructor
    · simp only [beq_eq_false_iff_ne, ne_eq]
      omega
    · right
      simp only [decide_eq_false_iff_not, not_le]
      omega
  · rintro rfl; exact absurd h2 (by decide)
  · rintro rfl; exact absurd h2 (by decide)
  · rintro rfl; exact absurd h1 (by decide)
  · rintro rfl; exact absurd h1 (by decide)

lemma dropWhile_all_false {p : Char → Bool} :
    ∀ {cs : List Char}, (∀ c ∈ cs, p c = false) → cs.dropWhile p = cs := by
  intro cs h
  cases cs with
  | nil => rfl
  | cons a as => simp [List.dropWhile, h a (List.mem_cons_self a as)]

lemma trimChars_digits {cs : List Char} (h : ∀ c ∈ cs, isPyDigit c = true) :
    trimChars cs = cs := by
  have h1 : ∀ c ∈ cs, isPySpace c = false := fun c hc => (isPyDigit_facts (h c hc)).1
  unfold trimChars
  rw [dropWhile_all_false h1,
    dropWhile_all_false (fun c hc => h1 c (List.mem_reverse.mp hc)),
    List.reverse_reverse]

lemma parseDigits_natDigits (n : Nat) : parseDigits (natDigits n) = some n := by
  rw [parseDigits, if_pos ⟨natDigits_ne_nil n, List.all_eq_true.mpr (natDigits_digits n)⟩,
    decimalVal_natDigits]

lemma pyInt_natRepr (n : Nat) : pyInt (natRepr n) = some (n : Int) := by
  have hdig := natDigits_digits n
  have htrim : trimChars (natRepr n).data = natDigits n := trimChars_digits hdig
  obtain ⟨c, cs, hcons⟩ := List.exists_cons_of_ne_nil (natDigits_ne_nil n)
  have hc : isPyDigit c = true := hdig c (by rw [hcons]; exact List.mem_cons_self _ _)
  have hfacts := isPyDigit_facts hc
  simp only [pyInt, htrim, hcons, List.head?_cons, List.tail_cons]
  rw [if_neg (by simp [hfacts.2.2.2.1]), if_neg (by simp [hfacts.2.2.2.2]), ← hcons,
    parseDigits_natDigits]
  rfl

lemma pyInt_intRepr {n : Int} (h : 0 ≤ n) : pyInt (intRepr n) = some n := by
  rw [intRepr, if_neg (by omega), pyInt_natRepr]
  congr 1
  omega

/-! ## The skeleton generator on well-formed labels -/

lemma fiscalLabel_data {n : Int} (h : 0 ≤ n) :
    (fiscalLabel n).data = '第' :: (natDigits n.natAbs ++ ['期']) := by
  rw [fiscalLabel, intRepr, if_neg (by omega)]
  simp [natRepr]

lemma filter_digits_ne {cs : List Char} (hdig : ∀ c ∈ cs, isPyDigit c = true) (x : Char)
    (hx : isPyDigit x = false) : cs.filter (fun a => a ≠ x) = cs := by
  rw [List.filter_eq_self]
  intro a ha
  simp only [ne_eq, decide_eq_true_eq]
  intro hax
  have hd := hdig a ha
  rw [hax, hx] at hd
  exact Bool.noConfusion hd

lemma filter_cons_self (x : Char) (l : List Char) :
    (x :: l).filter (fun b => b ≠ x) = l.filter (fun b => b ≠ x) := by
  simp [List.filter_cons]

lemma filter_cons_other {a x : Char} (h : a ≠ x) (l : List Char) :
    (a :: l).filter (fun b => b ≠ x) = a :: l.filter (fun b => b ≠ x) := by
  simp [List.filter_cons, h]

lemma create_full_period_df_label {n : Int} (h : 1 ≤ n) :
    create_full_period_df (some (fiscalLabel n)) = Except.ok (some (periodMonths n)) := by
  have hdata := fiscalLabel_data (show (0:Int) ≤ n by omega)
  have hdig := natDigits_digits n.natAbs
  have hcontains : (fiscalLabel n).data.contains '第' = true := by
    rw [hdata]; simp
  have hinner : removeChar (fiscalLabel n) '第' = String.mk (natDigits n.natAbs ++ ['期']) := by
    simp only [removeChar, hdata]
    congr 1
    rw [filter_cons_self, List.filter_append, filter_digits_ne hdig '第' (by decide),
      filter_cons_other (show '期' ≠ '第' from by decide), List.filter_nil]
  have hstrip : removeChar (removeChar (fiscalLabel n) '第') '期' = natRepr n.natAbs := by
    rw [hinner]
    simp only [removeChar, natRepr]
    congr 1
    rw [List.filter_append, filter_digits_ne hdig '期' (by decide),
      filter_cons_self, List.filter_nil, List.append_nil]
  rw [create_full_period_df, if_neg (by rw [hcontains]; simp), hstrip]
  have hpy : pyInt (natRepr n.natAbs) = some n := by
    rw [pyInt_natRepr]; congr 1; omega
  rw [hpy]
  rfl

lemma periodMonths_eq (n : Int) : periodMonths n =
    [⟨2022 + n, 4, 1⟩, ⟨2022 + n, 5, 1⟩, ⟨2022 + n, 6, 1⟩, ⟨2022 + n, 7, 1⟩,
     ⟨2022 + n, 8, 1⟩, ⟨2022 + n, 9, 1⟩, ⟨2022 + n, 10, 1⟩, ⟨2022 + n, 11, 1⟩,
     ⟨2022 + n, 12, 1⟩, ⟨2023 + n, 1, 1⟩, ⟨2023 + n, 2, 1⟩, ⟨2023 + n, 3, 1⟩] := by
  simp only [periodMonths, show List.range 12 = [0, 1, 2, 3, 4, 5, 6, 7, 8, 9, 10, 11] from rfl,
    List.map_cons, List.map_nil, addMonths, List.cons.injEq, Date.mk.injEq, and_true]
  norm_num
  omega

/-! ## Fiscal-period resolver lemmas -/

lemma fiscal_period_of_ge4 {y : Int} {m day : Nat} (h4 : 4 ≤ m) (hp : 0 < y - 2022) :
    get_fiscal_period (some ⟨y, m, day⟩) = some (fiscalLabel (y - 2022)) := by
  simp only [get_fiscal_period, fiscalLabel, ge_iff_le]
  rw [if_pos h4, if_pos hp]

lemma fiscal_period_of_ge4_out {y : Int} {m day : Nat} (h4 : 4 ≤ m) (hp : y - 2022 ≤ 0) :
    get_fiscal_period (some ⟨y, m, day⟩) = some "対象期間外" := by
  simp only [get_fiscal_period, ge_iff_le]
  rw [if_pos h4, if_neg (by omega)]

lemma fiscal_period_of_lt4 {y : Int} {m day : Nat} (h4 : m < 4) (hp : 0 < y - 1 - 2022) :
    get_fiscal_period (some ⟨y, m, day⟩) = some (fiscalLabel (y - 1 - 2022)) := by
  have hm : ¬ (4 ≤ m) := by omega
  simp only [get_fiscal_period, fiscalLabel, ge_iff_le]
  rw [if_neg hm, if_pos hp]

lemma fiscal_period_of_lt4_out {y : Int} {m day : Nat} (h4 : m < 4) (hp : y - 1 - 2022 ≤ 0) :
    get_fiscal_period (some ⟨y, m, day⟩) = some "対象期間外" := by
  have hm : ¬ (4 ≤ m) := by omega
  simp only [get_fiscal_period, ge_iff_le]
  rw [if_neg hm, if_neg (by omega)]

/-! ## String-order lemmas -/

lemma lexLe_total : ∀ a b : List Char, lexLe a b = true ∨ lexLe b a = true := by
  intro a
  induction a with
  | nil => intro b; left; rfl
  | cons x xs ih =>
    intro b
    cases b with
    | nil => right; rfl
    | cons y ys =>
      simp only [lexLe]
      rcases Nat.lt_trichotomy x.toNat y.toNat with h | h | h
      · left; rw [if_pos h]
      · rw [if_neg (by omega), if_neg (by omega), if_neg (by omega), if_neg (by omega)]
        exact ih ys
      · right; rw [if_pos h]

lemma lexLe_trans : ∀ a b c : List Char,
    lexLe a b = true → lexLe b c = true → lexLe a c = true := by
  intro a
  induction a with
  | nil => intro b c _ _; rfl
  | cons x xs ih =>
    intro b c hab hbc
    cases b with
    | nil => exact absurd hab (by simp [lexLe])
    | cons y ys =>
      cases c with
      | nil => exact absurd hbc (by simp [lexLe])
      | cons z zs =>
        simp only [lexLe] at hab hbc ⊢
        rcases Nat.lt_trichotomy x.toNat y.toNat with hxy | hxy | hxy
        · rcases Nat.lt_trichotomy y.toNat z.toNat with hyz | hyz | hyz
          · rw [if_pos (by omega)]
          · rw [if_pos (by omega)]
          · rw [if_neg (by omega), if_pos hyz] at hbc
            exact Bool.noConfusion hbc
        · rcases Nat.lt_trichotomy y.toNat z.toNat with hyz | hyz | hyz
          · rw [if_pos (by omega)]
          · rw [if_neg (by omega), if_neg (by omega)]
            rw [if_neg (by omega), if_neg (by omega)] at hab
            rw [if_neg (by omega), if_neg (by omega)] at hbc
            exact ih ys zs hab hbc
          · rw [if_neg (by omega), if_pos hyz] at hbc
            exact Bool.noConfusion hbc
        · rw [if_neg (by omega), if_pos hxy] at hab
          exact Bool.noConfusion hab

instance pyStrLeTotal : IsTotal String (fun a b => pyStrLe a b = true) :=
  ⟨fun a b => lexLe_total a.data b.data⟩

instance pyStrLeTrans : IsTrans String (fun a b => pyStrLe a b = true) :=
  ⟨fun a b c => lexLe_trans a.data b.data c.data⟩

lemma mem_all_periods_iff (records : List Record) (p : String) :
    p ∈ all_periods records ↔
      p ∈ records.filterMap orderPeriod ∨ p ∈ records.filterMap deliveryPeriod := by
  rw [all_periods, pySorted, (List.perm_insertionSort _ _).mem_iff, List.mem_dedup,
    List.mem_append]

/-! ## Example records -/

/-- The record of the spec's aggregation example: order date 2023-05-10,
revenue `"¥1,000"`, and filterable categorical values. -/
def exampleRecord : Record :=
  ⟨some ⟨2023, 5, 10⟩, none, RawVal.str "¥1,000", RawVal.absent,
   some "A", some "P", some "X", none⟩

/-- A record whose order date (2020-05-01) lies before the first tracked
period, so its order-period label is the sentinel. -/
def outLeftRecord : Record :=
  ⟨some ⟨2020, 5, 1⟩, none, RawVal.absent, RawVal.absent, none, none, none, none⟩

/-- A record in fiscal period 2 (order date 2024-05-01). -/
def periodTwoRecord : Record :=
  ⟨some ⟨2024, 5, 1⟩, none, RawVal.absent, RawVal.absent, none, none, none, none⟩

/-- A record in fiscal period 10 (order date 2032-05-01). -/
def periodTenRecord : Record :=
  ⟨some ⟨2032, 5, 1⟩, none, RawVal.absent, RawVal.absent, none, none, none, none⟩

/-! ## Claim theorems -/

/-- C1 (code_bug evidence): for the single record with order date 2023-05-10 and
revenue `"¥1,000"` in period `第1期` with every filter matching, the record is in
the period, its revenue normalizes to 1000, and the grouped totals do carry
1000 — but under the month-END key `2023-05-31` that `pd.Grouper(freq='M')`
assigns, while the skeleton holds month starts, so the key-equality merge
matches nothing and every one of the 12 buckets (the May-2023 bucket included)
comes out zero instead of the May bucket totalling 1000. -/
theorem order_aggregate_example_all_zero :
    orderPeriod exampleRecord = some "第1期"
    ∧ normalize_amount exampleRecord.revenue = 1000
    ∧ df_grouped (fun r => r.order_month)
        (df_order_filtered [exampleRecord] ["A"] ["P"] ["X"] "第1期") =
      [(⟨2023, 5, 31⟩, 1000, 0)]
    ∧ merged_df_order [exampleRecord] ["A"] ["P"] ["X"] "第1期" =
      some [(⟨2023, 4, 1⟩, 0, 0), (⟨2023, 5, 1⟩, 0, 0), (⟨2023, 6, 1⟩, 0, 0),
            (⟨2023, 7, 1⟩, 0, 0), (⟨2023, 8, 1⟩, 0, 0), (⟨2023, 9, 1⟩, 0, 0),
            (⟨2023, 10, 1⟩, 0, 0), (⟨2023, 11, 1⟩, 0, 0), (⟨2023, 12, 1⟩, 0, 0),
            (⟨2024, 1, 1⟩, 0, 0), (⟨2024, 2, 1⟩, 0, 0), (⟨2024, 3, 1⟩, 0, 0)] := by
  refine ⟨by decide, by decide, by decide, by decide⟩

/-- C2: `get_fiscal_period` maps an absent date to absent; a present date with
month ≥ 4 to period number `year - 2022` and with month < 4 to
`year - 1 - 2022`, printing the label for positive numbers and the sentinel
otherwise. -/
theorem resolve_period_spec :
    get_fiscal_period none = none
    ∧ (∀ d : Date, 4 ≤ d.month →
        get_fiscal_period (some d) =
          some (if d.year - 2022 ≤ 0 then "対象期間外" else fiscalLabel (d.year - 2022)))
    ∧ (∀ d : Date, d.month < 4 →
        get_fiscal_period (some d) =
          some (if d.year - 1 - 2022 ≤ 0 then "対象期間外"
                else fiscalLabel (d.year - 1 - 2022))) := by
  refine ⟨rfl, ?_, ?_⟩
  · intro d hm
    obtain ⟨y, m, day⟩ := d
    dsimp only at hm ⊢
    by_cases h : y - 2022 ≤ 0
    · rw [if_pos h]
      exact fiscal_period_of_ge4_out hm h
    · rw [if_neg h]
      exact fiscal_period_of_ge4 hm (by omega)
  · intro d hm
    obtain ⟨y, m, day⟩ := d
    dsimp only at hm ⊢
    by_cases h : y - 1 - 2022 ≤ 0
    · rw [if_pos h]
      exact fiscal_period_of_lt4_out hm h
    · rw [if_neg h]
      exact fiscal_period_of_lt4 hm (by omega)

/-- Witness for C2 at the dates 2023-05-10 (month ≥ 4, period 1) and
2024-02-01 (month < 4, period 1). -/
theorem resolve_period_spec_witness :
    get_fiscal_period (some ⟨2023, 5, 10⟩) =
      some (if (2023 : Int) - 2022 ≤ 0 then "対象期間外" else fiscalLabel (2023 - 2022))
    ∧ get_fiscal_period (some ⟨2024, 2, 1⟩) =
      some (if (2024 : Int) - 1 - 2022 ≤ 0 then "対象期間外"
            else fiscalLabel (2024 - 1 - 2022)) :=
  ⟨resolve_period_spec.2.1 ⟨2023, 5, 10⟩ (by decide),
   resolve_period_spec.2.2 ⟨2024, 2, 1⟩ (by decide)⟩

/-- C7 counterexample: the string `"第A期"` does not match the `第{number}期`
label format, yet `create_full_period_df` does not return absent — it hits
`int("A")` and raises an uncaught `ValueError`. -/
theorem create_full_period_df_raises :
    create_full_period_df (some "第A期") = Except.error "ValueError: invalid literal for int"
    ∧ ¬ create_full_period_df (some "第A期") = Except.ok none := by
  refine ⟨by decide, by decide⟩

/-- C7 amended: non-string input and any string not containing `'第'` (the
sentinel and the empty string included) give absent without failing, but a
string containing `'第'` whose remainder after deleting every `'第'` and `'期'`
does not parse as an integer makes `int()` raise. -/
theorem create_full_period_df_nonmatching :
    create_full_period_df none = Except.ok none
    ∧ (∀ s : String, s.data.contains '第' = false →
        create_full_period_df (some s) = Except.ok none)
    ∧ create_full_period_df (some "対象期間外") = Except.ok none
    ∧ create_full_period_df (some "") = Except.ok none
    ∧ (∀ s : String, s.data.contains '第' = true →
        pyInt (removeChar (removeChar s '第') '期') = none →
        create_full_period_df (some s) = Except.error "ValueError: invalid literal for int") := by
  refine ⟨rfl, ?_, by decide, by decide, ?_⟩
  · intro s h
    simp only [create_full_period_df]
    rw [if_pos (by simpa using h)]
  · intro s h hpy
    simp only [create_full_period_df]
    rw [if_neg (by simpa using h), hpy]

/-- Witness for C7's amended claim at `"abc"` (no marker, absent) and
`"第A期"` (marker with unparsable digits, error). -/
theorem create_full_period_df_nonmatching_witness :
    create_full_period_df (some "abc") = Except.ok none
    ∧ create_full_period_df (some "第A期") =
        Except.error "ValueError: invalid literal for int" :=
  ⟨create_full_period_df_nonmatching.2.1 "abc" (by decide),
   create_full_period_df_nonmatching.2.2.2.2 "第A期" (by decide) (by decide)⟩

/-- C8: the currency normalizer strips `¥` and `,` before coercion, turns
blank/whitespace-only cells into absent, and maps every cell whose cleaned
string fails numeric coercion (absent included) to exactly 0 — with the spec's
three examples. -/
theorem normalize_amount_policy :
    (∀ v : RawVal, to_numeric (stripCurrency (pyStrOf (blankToNone v))) = none →
        normalize_amount v = 0)
    ∧ (∀ s : String, s.data.all isPySpace = true →
        blankToNone (RawVal.str s) = RawVal.absent)
    ∧ normalize_amount (RawVal.str "¥12,000") = 12000
    ∧ normalize_amount (RawVal.str "") = 0
    ∧ normalize_amount RawVal.absent = 0 := by
  refine ⟨?_, ?_, by decide, by decide, by decide⟩
  · intro v h
    rw [normalize_amount, h]
    rfl
  · intro s h
    simp only [blankToNone, h, if_true]

/-- Witness for C8 at the unparsable cell `"abc"` and the whitespace cell `" "`. -/
theorem normalize_amount_policy_witness :
    normalize_amount (RawVal.str "abc") = 0
    ∧ blankToNone (RawVal.str " ") = RawVal.absent :=
  ⟨normalize_amount_policy.1 (RawVal.str "abc") (by decide),
   normalize_amount_policy.2.1 " " (by decide)⟩

/-- C4 counterexample: for the data consisting of one record whose order date
2020-05-01 resolves to the sentinel, the selectable period list is exactly
`["対象期間外"]` — the sentinel is not excluded. -/
theorem sentinel_not_excluded :
    all_periods [outLeftRecord] = ["対象期間外"]
    ∧ "対象期間外" ∈ all_periods [outLeftRecord] := by
  refine ⟨by decide, by decide⟩

/-- C4 amended: `dropna()` removes only absent labels, so the sentinel appears
in the selectable period list exactly when some record's order or delivery
period resolves to it. -/
theorem sentinel_in_all_periods_iff :
    ∀ records : List Record,
      "対象期間外" ∈ all_periods records ↔
        ∃ r ∈ records,
          orderPeriod r = some "対象期間外" ∨ deliveryPeriod r = some "対象期間外" := by
  intro records
  rw [mem_all_periods_iff]
  simp only [List.mem_filterMap]
  constructor
  · rintro (⟨r, hr, h⟩ | ⟨r, hr, h⟩)
    · exact ⟨r, hr, Or.inl h⟩
    · exact ⟨r, hr, Or.inr h⟩
  · rintro ⟨r, hr, h | h⟩
    · exact Or.inl ⟨r, hr, h⟩
    · exact Or.inr ⟨r, hr, h⟩

/-- C9: a record with an absent flow type (`商流`) or phase (`案件フェーズ`)
fails `base_filter` under every selection — membership of an absent value never
matches — and is therefore excluded from both filtered frames and so from every
aggregate. -/
theorem absent_category_excluded :
    ∀ (selShoryu selPhase selSales : List String) (p : String) (records : List Record)
      (r : Record), r.shoryu = none ∨ r.phase = none →
      base_filter selShoryu selPhase selSales r = false
      ∧ r ∉ df_order_filtered records selShoryu selPhase selSales p
      ∧ r ∉ df_delivery_filtered records selShoryu selPhase selSales p := by
  intro s1 s2 s3 p records r h
  have hb : base_filter s1 s2 s3 r = false := by
    rcases h with h | h <;> simp [base_filter, isinOpt, h]
  refine ⟨hb, ?_, ?_⟩
  · intro hmem
    simp only [df_order_filtered, List.mem_filter, hb, Bool.false_and] at hmem
    exact Bool.noConfusion hmem.2
  · intro hmem
    simp only [df_delivery_filtered, List.mem_filter, hb, Bool.false_and] at hmem
    exact Bool.noConfusion hmem.2

/-- Witness for C9: the all-absent record is excluded even with nonempty
selections. -/
theorem absent_category_excluded_witness :
    base_filter ["A"] ["P"] ["X"] outLeftRecord = false
    ∧ outLeftRecord ∉ df_order_filtered [outLeftRecord] ["A"] ["P"] ["X"] "第1期"
    ∧ outLeftRecord ∉ df_delivery_filtered [outLeftRecord] ["A"] ["P"] ["X"] "第1期" :=
  absent_category_excluded ["A"] ["P"] ["X"] "第1期" [outLeftRecord] outLeftRecord (Or.inl rfl)

/-- C6: for every period number `n ≥ 1`, `create_full_period_df` on the label of
period `n` returns exactly the 12 month-start timestamps from April 1 of year
`2022 + n` through March of the following year, consecutive, ascending, without
gaps or duplicates. -/
theorem expand_period_twelve_consecutive :
    ∀ n : Int, 1 ≤ n →
      create_full_period_df (some (fiscalLabel n)) = Except.ok (some (periodMonths n))
      ∧ (periodMonths n).length = 12
      ∧ (periodMonths n).head? = some ⟨2022 + n, 4, 1⟩
      ∧ (periodMonths n).getLast? = some ⟨2023 + n, 3, 1⟩
      ∧ (∀ d ∈ periodMonths n, d.day = 1)
      ∧ List.Chain' (fun a b => b = addMonths a 1) (periodMonths n)
      ∧ (periodMonths n).Nodup := by
  intro n hn
  refine ⟨create_full_period_df_label hn, ?_, ?_, ?_, ?_, ?_, ?_⟩ <;> rw [periodMonths_eq]
  · rfl
  · rfl
  · rfl
  · intro d hd
    simp only [List.mem_cons, List.not_mem_nil, or_false] at hd
    rcases hd with rfl | rfl | rfl | rfl | rfl | rfl | rfl | rfl | rfl | rfl | rfl | rfl <;> rfl
  · simp only [List.chain'_cons, List.chain'_singleton, and_true, addMonths, Date.mk.injEq]
    norm_num
    omega
  · refine List.Nodup.of_map (fun d => d.month) ?_
    show List.Nodup [4, 5, 6, 7, 8, 9, 10, 11, 12, 1, 2, 3]
    decide

/-- Witness for C6 at period 1. -/
theorem expand_period_twelve_consecutive_witness :
    create_full_period_df (some (fiscalLabel 1)) = Except.ok (some (periodMonths 1))
    ∧ (periodMonths 1).length = 12
    ∧ (periodMonths 1).head? = some ⟨2022 + 1, 4, 1⟩
    ∧ (periodMonths 1).getLast? = some ⟨2023 + 1, 3, 1⟩
    ∧ (∀ d ∈ periodMonths 1, d.day = 1)
    ∧ List.Chain' (fun a b => b = addMonths a 1) (periodMonths 1)
    ∧ (periodMonths 1).Nodup :=
  expand_period_twelve_consecutive 1 (by decide)

/-- C5: every month produced by `create_full_period_df` for the label of period
`n ≥ 1` resolves back to that same label under `get_fiscal_period`. -/
theorem expand_resolve_roundtrip :
    ∀ n : Int, 1 ≤ n → ∀ months : List Date,
      create_full_period_df (some (fiscalLabel n)) = Except.ok (some months) →
      ∀ d ∈ months, get_fiscal_period (some d) = some (fiscalLabel n) := by
  intro n hn months hcr d hd
  rw [create_full_period_df_label hn] at hcr
  simp only [Except.ok.injEq, Option.some.injEq] at hcr
  subst hcr
  rw [periodMonths_eq] at hd
  have e1 : (2022 : Int) + n - 2022 = n := by ring
  have e2 : (2023 : Int) + n - 1 - 2022 = n := by ring
  simp only [List.mem_cons, List.not_mem_nil, or_false] at hd
  rcases hd with rfl | rfl | rfl | rfl | rfl | rfl | rfl | rfl | rfl | rfl | rfl | rfl <;>
    first
      | rw [fiscal_period_of_ge4 (by norm_num) (by omega), e1]
      | rw [fiscal_period_of_lt4 (by norm_num) (by omega), e2]

/-- Witness for C5: May 2023 belongs to period 1's months and resolves to its
label. -/
theorem expand_resolve_roundtrip_witness :
    get_fiscal_period (some ⟨2023, 5, 1⟩) = some (fiscalLabel 1) :=
  expand_resolve_roundtrip 1 (by decide) (periodMonths 1) (by decide) ⟨2023, 5, 1⟩ (by decide)

/-- C3: for every valid period label (number ≥ 1) and any records and filter
selections — zero matching records included — both merged aggregates exist and
have exactly 12 month rows. -/
theorem aggregate_always_twelve_months :
    ∀ n : Int, 1 ≤ n →
      ∀ (records : List Record) (selShoryu selPhase selSales : List String),
        (∃ out, merged_df_order records selShoryu selPhase selSales (fiscalLabel n) = some out
          ∧ out.length = 12)
        ∧ (∃ out,
            merged_df_delivery records selShoryu selPhase selSales (fiscalLabel n) = some out
            ∧ out.length = 12) := by
  intro n hn records s1 s2 s3
  constructor
  · refine ⟨pd_merge_left (periodMonths n) (df_grouped (fun r => r.order_month)
      (df_order_filtered records s1 s2 s3 (fiscalLabel n))), ?_, ?_⟩
    · simp only [merged_df_order]
      rw [create_full_period_df_label hn]
    · simp [pd_merge_left, periodMonths]
  · refine ⟨pd_merge_left (periodMonths n) (df_grouped (fun r => r.delivery_month)
      (df_delivery_filtered records s1 s2 s3 (fiscalLabel n))), ?_, ?_⟩
    · simp only [merged_df_delivery]
      rw [create_full_period_df_label hn]
    · simp [pd_merge_left, periodMonths]

/-- Witness for C3 at period 1 with no records and empty selections. -/
theorem aggregate_always_twelve_months_witness :
    (∃ out, merged_df_order [] [] [] [] (fiscalLabel 1) = some out ∧ out.length = 12)
    ∧ (∃ out, merged_df_delivery [] [] [] [] (fiscalLabel 1) = some out ∧ out.length = 12) :=
  aggregate_always_twelve_months 1 (by decide) [] [] [] []

/-- C10: the selectable period list is the code-point-sorted union of the
distinct present order- and delivery-period labels; the default selection is
its last element; label order agrees with numeric period order exactly on
periods 1-9; and with periods {10, 2} in the data the default is `第2期`, not
the numerically latest `第10期`. -/
theorem period_list_sorted_default :
    (∀ (records : List Record) (p : String),
        p ∈ all_periods records ↔
          p ∈ records.filterMap orderPeriod ∨ p ∈ records.filterMap deliveryPeriod)
    ∧ (∀ records : List Record,
        List.Sorted (fun a b => pyStrLe a b = true) (all_periods records))
    ∧ (∀ records : List Record, default_period records = (all_periods records).getLast?)
    ∧ (∀ n : Nat, n < 10 → ∀ m : Nat, m < 10 → 1 ≤ n → 1 ≤ m →
        (pyStrLt (fiscalLabel (n : Int)) (fiscalLabel (m : Int)) = true ↔ n < m))
    ∧ all_periods [periodTenRecord, periodTwoRecord] = [fiscalLabel 10, fiscalLabel 2]
    ∧ default_period [periodTenRecord, periodTwoRecord] = some (fiscalLabel 2) := by
  refine ⟨mem_all_periods_iff, ?_, ?_, by decide, by decide, by decide⟩
  · intro records
    exact List.sorted_insertionSort _ _
  · intro records
    exact (List.getLast?_eq_get? _).symm

/-- Witness for C10's bounded order-agreement clause at periods 3 and 7. -/
theorem period_list_sorted_default_witness :
    pyStrLt (fiscalLabel ((3 : Nat) : Int)) (fiscalLabel ((7 : Nat) : Int)) = true :=
  (period_list_sorted_default.2.2.2.1 3 (by decide) 7 (by decide) (by decide)
    (by decide)).mpr (by decide)
